import Mathlib

/-!
HEART score calculator: the scoring pipeline of `src/script.js`

A shallow embedding of the pure functions of `script.js` (validation, scoring,
classification, interpretation, flags) and the properties proved about them.

JavaScript numbers are modelled by `JSNumber`: either `NaN` (what `parseInt` and
`parseFloat` give for an unset or unparseable form field) or a finite value kept as
an exact rational.  Every comparison in the source is against an integer constant
(0, 3, 6, 18, 45, 65, 120), and the sums are sums of small integers, so exact
arithmetic agrees with double arithmetic on the values the form produces.  The two
infinities are not represented: `parseInt` never returns them, and for the age they
take the same branches as a finite age below 0 or above 120.
-/

namespace HeartScore

/-! ## JavaScript numbers -/

/-- A JavaScript number: `NaN`, or a finite value held as an exact rational. -/
inductive JSNumber where
  | nan : JSNumber
  | num (q : ℚ) : JSNumber
  deriving DecidableEq

namespace JSNumber

/-- The test `Number.isNaN(x)`. -/
def isNaN : JSNumber → Bool
  | nan => true
  | num _ => false

/-- The operator `x + y` on numbers: `NaN` is absorbing. -/
def add : JSNumber → JSNumber → JSNumber
  | num a, num b => num (a + b)
  | _, _ => nan

instance : Add JSNumber := ⟨add⟩

/-- The operator `x < y`: false as soon as one side is `NaN`. -/
def lt : JSNumber → JSNumber → Bool
  | num a, num b => decide (a < b)
  | _, _ => false

/-- The operator `x <= y`: false as soon as one side is `NaN`. -/
def le : JSNumber → JSNumber → Bool
  | num a, num b => decide (a ≤ b)
  | _, _ => false

/-- The operator `x > y`: false as soon as one side is `NaN`. -/
def gt : JSNumber → JSNumber → Bool
  | num a, num b => decide (b < a)
  | _, _ => false

/-- The operator `x >= y`: false as soon as one side is `NaN`. -/
def ge : JSNumber → JSNumber → Bool
  | num a, num b => decide (b ≤ a)
  | _, _ => false

end JSNumber

open JSNumber

/-! ## Data model -/

/-- The object built by `readInputs`: three category codes, the age, and the checked
risk-factor tokens.  `riskFactors = none` stands for a `null`/`undefined` field, which
`calculateHeartRiskFactorPoints` guards against. -/
structure Inputs where
  historyScore : JSNumber
  ecgScore : JSNumber
  tropScore : JSNumber
  ageYears : JSNumber
  riskFactors : Option (List String)
  deriving DecidableEq

/-- The object returned by `performCalculations`. -/
structure ScoreResult where
  ageYears : JSNumber
  historyScore : JSNumber
  ecgScore : JSNumber
  tropScore : JSNumber
  riskFactors : Option (List String)
  agePoints : JSNumber
  riskFactorPoints : JSNumber
  totalScore : JSNumber
  riskCategory : String
  deriving DecidableEq

/-- The object returned by `interpretResults`. -/
structure Interpretation where
  summary : String
  notes : List String
  deriving DecidableEq

/-- One element of the list returned by `deriveFlags`. -/
structure Flag where
  level : String
  message : String
  deriving DecidableEq

/-- The object returned by `calculateHeartScoreFromRaw`. -/
structure RawScore where
  totalScore : JSNumber
  riskCategory : String
  agePoints : JSNumber
  riskFactorPoints : JSNumber
  deriving DecidableEq

/-! ## String literals of the source -/

def historyRequiredMsg : String := "History category is required."
def ecgRequiredMsg : String := "ECG category is required."
def tropRequiredMsg : String := "Troponin category is required."
def ageRequiredMsg : String := "Age is required and must be a number."
def ageRangeMsg : String := "Age appears outside typical human range (0–120)."

def lowSummary : String := "Low-risk HEART score (0–3)."
def intermediateSummary : String := "Intermediate-risk HEART score (4–6)."
def highSummary : String := "High-risk HEART score (7–10)."

def lowNote : String :=
  "Associated with 0.9–1.7% risk of MACE; in the HEART score study, these patients were typically discharged."
def intermediateNote : String :=
  "Associated with a 12–16.6% estimated risk of MACE; in the HEART score study, these patients were typically admitted to the hospital."
def highNote : String :=
  "Associated with 50–65% risk of MACE; in the HEART score study, these patients were candidates for early invasive measures."
def maceNote : String :=
  "Major adverse cardiac events (MACE): acute myocardial infarction, need for percutaneous coronary intervention or coronary artery bypass graft, or death within 6 weeks."
def pediatricNote : String :=
  "HEART score was developed for adult chest pain populations; use in younger patients is not well validated."

def highFlagMsg : String :=
  "High-risk HEART score (≥7). Consider urgent evaluation per ACS protocol."
def intermediateFlagMsg : String :=
  "Intermediate-risk HEART score (4–6). Requires close clinical follow-up and appropriate testing."
def ageFlagMsg : String :=
  "Tool is primarily validated for adult chest pain populations (≥18 years)."

/-! ## Input handling -/

/-- The function `validateInputs`: four independent checks, each pushing onto `errors`. -/
def validateInputs (inputs : Inputs) : List String :=
  let errors : List String := []
  let errors :=
    if inputs.historyScore.isNaN then errors ++ [historyRequiredMsg] else errors
  let errors :=
    if inputs.ecgScore.isNaN then errors ++ [ecgRequiredMsg] else errors
  let errors :=
    if inputs.tropScore.isNaN then errors ++ [tropRequiredMsg] else errors
  let errors :=
    if inputs.ageYears.isNaN then errors ++ [ageRequiredMsg]
    else if inputs.ageYears.lt (num 0) || inputs.ageYears.gt (num 120) then errors ++ [ageRangeMsg]
    else errors
  errors

/-! ## Core calculations -/

/-- The function `calculateHeartAgePoints`. -/
def calculateHeartAgePoints (ageYears : JSNumber) : JSNumber :=
  if ageYears.lt (num 45) then num 0
  else if ageYears.lt (num 65) then num 1
  else num 2

/-- The function `calculateHeartRiskFactorPoints`. -/
def calculateHeartRiskFactorPoints (riskFactors : Option (List String)) : JSNumber :=
  match riskFactors with
  | none => num 0
  | some rfs =>
    if rfs.length = 0 then num 0
    else
      let hasKnownAthero := rfs.contains "knownAthero"
      let count := (rfs.filter (fun rf => rf != "knownAthero")).length
      if hasKnownAthero then num 2
      else if count = 0 then num 0
      else if count ≤ 2 then num 1
      else num 2

/-- The function `classifyHeartRiskCategory`. -/
def classifyHeartRiskCategory (totalScore : JSNumber) : String :=
  if totalScore.le (num 3) then "low"
  else if totalScore.le (num 6) then "intermediate"
  else "high"

/-- The function `performCalculations`. -/
def performCalculations (inputs : Inputs) : ScoreResult :=
  let agePoints := calculateHeartAgePoints inputs.ageYears
  let riskFactorPoints := calculateHeartRiskFactorPoints inputs.riskFactors
  let totalScore :=
    inputs.historyScore + inputs.ecgScore + agePoints + riskFactorPoints + inputs.tropScore
  let riskCategory := classifyHeartRiskCategory totalScore
  { ageYears := inputs.ageYears
    historyScore := inputs.historyScore
    ecgScore := inputs.ecgScore
    tropScore := inputs.tropScore
    riskFactors := inputs.riskFactors
    agePoints := agePoints
    riskFactorPoints := riskFactorPoints
    totalScore := totalScore
    riskCategory := riskCategory }

/-- The function `calculateHeartScoreFromRaw`. -/
def calculateHeartScoreFromRaw (inputs : Inputs) : RawScore :=
  let agePoints := calculateHeartAgePoints inputs.ageYears
  let riskFactorPoints := calculateHeartRiskFactorPoints inputs.riskFactors
  let totalScore :=
    inputs.historyScore + inputs.ecgScore + agePoints + riskFactorPoints + inputs.tropScore
  let riskCategory := classifyHeartRiskCategory totalScore
  { totalScore := totalScore
    riskCategory := riskCategory
    agePoints := agePoints
    riskFactorPoints := riskFactorPoints }

/-! ## Interpretation -/

/-- The function `interpretResults`: `summary` and `notes` start empty, the branch on
`riskCategory` sets the summary and pushes the category note, then the MACE definition is
pushed, then the caveat for ages below 18. -/
def interpretResults (results : ScoreResult) : Interpretation :=
  let acc : Interpretation := { summary := "", notes := [] }
  let acc : Interpretation :=
    if results.riskCategory = "low" then
      { summary := lowSummary, notes := acc.notes ++ [lowNote] }
    else if results.riskCategory = "intermediate" then
      { summary := intermediateSummary, notes := acc.notes ++ [intermediateNote] }
    else
      { summary := highSummary, notes := acc.notes ++ [highNote] }
  let acc : Interpretation := { acc with notes := acc.notes ++ [maceNote] }
  let acc : Interpretation :=
    if results.ageYears.lt (num 18) then { acc with notes := acc.notes ++ [pediatricNote] }
    else acc
  acc

/-! ## Flags -/

/-- The function `deriveFlags`; the second argument is never read. -/
def deriveFlags (results : ScoreResult) (_interpretation : Interpretation) : List Flag :=
  let flags : List Flag := []
  let flags :=
    if results.riskCategory = "high" then
      flags ++ [{ level := "danger", message := highFlagMsg }]
    else if results.riskCategory = "intermediate" then
      flags ++ [{ level := "warning", message := intermediateFlagMsg }]
    else flags
  let flags :=
    if results.ageYears.lt (num 18) then
      flags ++ [{ level := "warning", message := ageFlagMsg }]
    else flags
  flags

/-! ## Vocabulary of the statements -/

/-- A category code in range: one of the numbers 0, 1, 2. -/
def isCategoryCode (x : JSNumber) : Prop := x = num 0 ∨ x = num 1 ∨ x = num 2

instance (x : JSNumber) : Decidable (isCategoryCode x) := by
  unfold isCategoryCode; infer_instance

/-- A category code as the data model describes it before validation: missing (`NaN`) or one
of 0, 1, 2. -/
def isRawCategoryCode (x : JSNumber) : Prop := x = nan ∨ isCategoryCode x

instance (x : JSNumber) : Decidable (isRawCategoryCode x) := by
  unfold isRawCategoryCode; infer_instance

/-- An integer total in the range 0..10. -/
def inScoreRange (x : JSNumber) : Prop := ∃ n : ℤ, x = num (n : ℚ) ∧ 0 ≤ n ∧ n ≤ 10

/-! ## Basic facts about `JSNumber` -/

@[simp]
theorem JSNumber.num_add_num (a b : ℚ) : num a + num b = num (a + b) := rfl
@[simp]
theorem JSNumber.nan_add (x : JSNumber) : nan + x = nan := rfl
@[simp]
theorem JSNumber.add_nan (x : JSNumber) : x + nan = nan := by cases x <;> rfl
@[simp]
theorem JSNumber.lt_num_num (a b : ℚ) : (num a).lt (num b) = decide (a < b) := rfl
@[simp]
theorem JSNumber.le_num_num (a b : ℚ) : (num a).le (num b) = decide (a ≤ b) := rfl
@[simp]
theorem JSNumber.gt_num_num (a b : ℚ) : (num a).gt (num b) = decide (b < a) := rfl
@[simp]
theorem JSNumber.ge_num_num (a b : ℚ) : (num a).ge (num b) = decide (b ≤ a) := rfl
@[simp]
theorem JSNumber.nan_ge (x : JSNumber) : nan.ge x = false := rfl
@[simp]
theorem JSNumber.nan_lt (x : JSNumber) : nan.lt x = false := rfl
@[simp]
theorem JSNumber.nan_le (x : JSNumber) : nan.le x = false := rfl
@[simp]
theorem JSNumber.nan_gt (x : JSNumber) : nan.gt x = false := rfl
@[simp]
theorem JSNumber.isNaN_num (a : ℚ) : (num a).isNaN = false := rfl
@[simp]
theorem JSNumber.isNaN_nan : nan.isNaN = true := rfl

/-! ## Sub-scores are always 0, 1 or 2 -/

theorem calculateHeartAgePoints_cases (age : JSNumber) :
    calculateHeartAgePoints age = num 0 ∨ calculateHeartAgePoints age = num 1 ∨
      calculateHeartAgePoints age = num 2 := by
  unfold calculateHeartAgePoints
  split_ifs <;> simp

theorem calculateHeartRiskFactorPoints_cases (rfs : Option (List String)) :
    calculateHeartRiskFactorPoints rfs = num 0 ∨ calculateHeartRiskFactorPoints rfs = num 1 ∨
      calculateHeartRiskFactorPoints rfs = num 2 := by
  unfold calculateHeartRiskFactorPoints
  cases rfs with
  | none => simp
  | some l =>
    dsimp only
    split_ifs <;> simp

/-! ## Scoring engine -/

/-- C2: for every rational (in particular every integer) age `a`, `calculateHeartAgePoints`
gives 0 exactly when `a < 45`, 1 exactly when `45 ≤ a < 65` and 2 exactly when `a ≥ 65`;
at the breakpoints 44 gives 0, 45 gives 1, 64 gives 1 and 65 gives 2. -/
theorem calculateHeartAgePoints_bands (a : ℚ) :
    (calculateHeartAgePoints (num a) = num 0 ↔ a < 45)
    ∧ (calculateHeartAgePoints (num a) = num 1 ↔ 45 ≤ a ∧ a < 65)
    ∧ (calculateHeartAgePoints (num a) = num 2 ↔ 65 ≤ a)
    ∧ calculateHeartAgePoints (num 44) = num 0
    ∧ calculateHeartAgePoints (num 45) = num 1
    ∧ calculateHeartAgePoints (num 64) = num 1
    ∧ calculateHeartAgePoints (num 65) = num 2 := by
  refine ⟨?_, ?_, ?_, ?_, ?_, ?_, ?_⟩
  · unfold calculateHeartAgePoints
    by_cases h1 : a < 45
    · simp [h1]
    · by_cases h2 : a < 65 <;> simp [h1, h2]
  · unfold calculateHeartAgePoints
    by_cases h1 : a < 45
    · simp [h1]
    · by_cases h2 : a < 65
      · simp [h1, h2]; linarith
      · simp [h1, h2]
  · unfold calculateHeartAgePoints
    by_cases h1 : a < 45
    · simp [h1]; linarith
    · by_cases h2 : a < 65
      · simp [h1, h2]
      · simp [h1, h2]; linarith
  all_goals (unfold calculateHeartAgePoints; norm_num)

/-! ## Classifier -/

theorem classifyHeartRiskCategory_int (z : ℤ) :
    classifyHeartRiskCategory (num (z : ℚ))
      = if z ≤ 3 then "low" else if z ≤ 6 then "intermediate" else "high" := by
  have h3 : ((z : ℚ) ≤ 3) ↔ z ≤ 3 := by exact_mod_cast Iff.rfl
  have h6 : ((z : ℚ) ≤ 6) ↔ z ≤ 6 := by exact_mod_cast Iff.rfl
  simp only [classifyHeartRiskCategory, JSNumber.le_num_num, decide_eq_true_eq, h3, h6]

/-- C3: for every integer `totalScore` (negative and above 10 included),
`classifyHeartRiskCategory` returns "low" iff `totalScore ≤ 3`, "intermediate" iff
`4 ≤ totalScore ≤ 6` and "high" iff `totalScore ≥ 7`; the result is always one of the
three; at the boundaries 3 is low, 4 and 6 are intermediate, 7 is high. -/
theorem classifyHeartRiskCategory_thresholds (z : ℤ) :
    (classifyHeartRiskCategory (num (z : ℚ)) = "low" ↔ z ≤ 3)
    ∧ (classifyHeartRiskCategory (num (z : ℚ)) = "intermediate" ↔ 4 ≤ z ∧ z ≤ 6)
    ∧ (classifyHeartRiskCategory (num (z : ℚ)) = "high" ↔ 7 ≤ z)
    ∧ (classifyHeartRiskCategory (num (z : ℚ)) = "low"
        ∨ classifyHeartRiskCategory (num (z : ℚ)) = "intermediate"
        ∨ classifyHeartRiskCategory (num (z : ℚ)) = "high")
    ∧ classifyHeartRiskCategory (num 3) = "low"
    ∧ classifyHeartRiskCategory (num 4) = "intermediate"
    ∧ classifyHeartRiskCategory (num 6) = "intermediate"
    ∧ classifyHeartRiskCategory (num 7) = "high" := by
  rw [classifyHeartRiskCategory_int]
  refine ⟨?_, ?_, ?_, ?_, by decide, by decide, by decide, by decide⟩
  all_goals
    by_cases h1 : z ≤ 3 <;> by_cases h2 : z ≤ 6 <;> simp [h1, h2] <;> omega

/-! ## Risk-factor sub-score -/

/-- C4: a risk-factor list that contains the token "knownAthero" scores exactly 2, whatever
else it contains and wherever the token sits. -/
theorem calculateHeartRiskFactorPoints_knownAthero (rfs : List String)
    (h : "knownAthero" ∈ rfs) :
    calculateHeartRiskFactorPoints (some rfs) = num 2 := by
  have hne : rfs.length ≠ 0 := by
    intro h0
    rw [List.length_eq_zero] at h0
    rw [h0] at h
    exact absurd h (List.not_mem_nil _)
  have hc : rfs.contains "knownAthero" = true := by simpa using h
  simp only [calculateHeartRiskFactorPoints, hne, if_false, hc, if_true]

theorem calculateHeartRiskFactorPoints_knownAthero_witness :
    "knownAthero" ∈ ["smoker", "knownAthero", "htn", "diabetes"]
    ∧ calculateHeartRiskFactorPoints (some ["smoker", "knownAthero", "htn", "diabetes"]) = num 2 :=
  ⟨by decide, calculateHeartRiskFactorPoints_knownAthero _ (by decide)⟩

theorem filter_ne_knownAthero_of_not_mem (rfs : List String) (h : "knownAthero" ∉ rfs) :
    rfs.filter (fun rf => rf != "knownAthero") = rfs := by
  rw [List.filter_eq_self]
  intro a ha
  have : a ≠ "knownAthero" := fun e => h (e ▸ ha)
  simpa using this

/-- C5: a risk-factor list without the token "knownAthero" scores 0 when it is empty, 1 when
it has one or two elements and 2 when it has three or more. -/
theorem calculateHeartRiskFactorPoints_count (rfs : List String)
    (h : "knownAthero" ∉ rfs) :
    calculateHeartRiskFactorPoints (some rfs)
      = if rfs.length = 0 then num 0 else if rfs.length ≤ 2 then num 1 else num 2 := by
  have hc : rfs.contains "knownAthero" = false := by simpa using h
  simp only [calculateHeartRiskFactorPoints, hc, filter_ne_knownAthero_of_not_mem rfs h]
  by_cases h0 : rfs.length = 0
  · simp [h0]
  · simp [h0]

theorem calculateHeartRiskFactorPoints_count_witness :
    "knownAthero" ∉ ["smoker", "htn", "diabetes"]
    ∧ calculateHeartRiskFactorPoints (some ["smoker", "htn", "diabetes"]) = num 2 :=
  ⟨by decide, calculateHeartRiskFactorPoints_count ["smoker", "htn", "diabetes"] (by decide)⟩

/-! ## Validation -/

theorem validateInputs_eq (inputs : Inputs) :
    validateInputs inputs
      = (if inputs.historyScore.isNaN then [historyRequiredMsg] else [])
        ++ (if inputs.ecgScore.isNaN then [ecgRequiredMsg] else [])
        ++ (if inputs.tropScore.isNaN then [tropRequiredMsg] else [])
        ++ (if inputs.ageYears.isNaN then [ageRequiredMsg]
            else if inputs.ageYears.lt (num 0) || inputs.ageYears.gt (num 120) then [ageRangeMsg]
            else []) := by
  unfold validateInputs
  split_ifs <;> rfl

theorem validateInputs_nil_present (inputs : Inputs) (hv : validateInputs inputs = []) :
    inputs.historyScore ≠ nan ∧ inputs.ecgScore ≠ nan ∧ inputs.tropScore ≠ nan
      ∧ inputs.ageYears ≠ nan := by
  rw [validateInputs_eq] at hv
  refine ⟨?_, ?_, ?_, ?_⟩ <;> intro h <;> simp [h] at hv

/-! ## Bounds on the total -/

theorem isCategoryCode_int {x : JSNumber} (h : isCategoryCode x) :
    ∃ a : ℤ, x = num (a : ℚ) ∧ 0 ≤ a ∧ a ≤ 2 := by
  rcases h with h | h | h
  · exact ⟨0, by simpa using h, by norm_num, by norm_num⟩
  · exact ⟨1, by simpa using h, by norm_num, by norm_num⟩
  · exact ⟨2, by simpa using h, by norm_num, by norm_num⟩

theorem totalScore_inScoreRange (inputs : Inputs)
    (hh : isCategoryCode inputs.historyScore) (he : isCategoryCode inputs.ecgScore)
    (ht : isCategoryCode inputs.tropScore) :
    inScoreRange (performCalculations inputs).totalScore := by
  obtain ⟨h, hh, hh0, hh2⟩ := isCategoryCode_int hh
  obtain ⟨e, he, he0, he2⟩ := isCategoryCode_int he
  obtain ⟨t, ht, ht0, ht2⟩ := isCategoryCode_int ht
  obtain ⟨ap, ha, ha0, ha2⟩ := isCategoryCode_int (calculateHeartAgePoints_cases inputs.ageYears)
  obtain ⟨rp, hr, hr0, hr2⟩ :=
    isCategoryCode_int (calculateHeartRiskFactorPoints_cases inputs.riskFactors)
  refine ⟨h + e + ap + rp + t, ?_, by omega, by omega⟩
  simp only [performCalculations, hh, he, ht, ha, hr, JSNumber.num_add_num]
  push_cast
  rfl

theorem not_inScoreRange_of_gt {q : ℚ} (h : 10 < q) : ¬ inScoreRange (num q) := by
  rintro ⟨n, hn, _, h10⟩
  have hq : q = (n : ℚ) := by injection hn
  have : (n : ℚ) ≤ 10 := by exact_mod_cast h10
  linarith

/-- C6, as stated, fails: the record with the three category codes equal to 3, age 70 and the
risk factor "knownAthero" passes `validateInputs`, and its total is 13. -/
theorem validateInputs_accepts_total_13 :
    validateInputs ⟨num 3, num 3, num 3, num 70, some ["knownAthero"]⟩ = []
    ∧ (performCalculations ⟨num 3, num 3, num 3, num 70, some ["knownAthero"]⟩).totalScore
        = num 13
    ∧ ¬ inScoreRange
        (performCalculations ⟨num 3, num 3, num 3, num 70, some ["knownAthero"]⟩).totalScore := by
  have ha : calculateHeartAgePoints (num 70) = num 2 := by decide
  have hr : calculateHeartRiskFactorPoints (some ["knownAthero"]) = num 2 := by decide
  have ht : (performCalculations ⟨num 3, num 3, num 3, num 70, some ["knownAthero"]⟩).totalScore
      = num 13 := by
    simp only [performCalculations, ha, hr, JSNumber.num_add_num]
    norm_num
  refine ⟨by decide, ht, ?_⟩
  rw [ht]
  exact not_inScoreRange_of_gt (by norm_num)

/-- C6, amended: for every input whose three category codes are each missing or one of
0, 1, 2 (the data model of the raw inputs), if `validateInputs` accepts it then the total
computed by `performCalculations` is an integer in 0..10. -/
theorem validated_totalScore_inScoreRange (inputs : Inputs)
    (hv : validateInputs inputs = [])
    (hh : isRawCategoryCode inputs.historyScore) (he : isRawCategoryCode inputs.ecgScore)
    (ht : isRawCategoryCode inputs.tropScore) :
    inScoreRange (performCalculations inputs).totalScore := by
  obtain ⟨h1, h2, h3, _⟩ := validateInputs_nil_present inputs hv
  exact totalScore_inScoreRange inputs (hh.resolve_left h1) (he.resolve_left h2)
    (ht.resolve_left h3)

theorem validated_totalScore_inScoreRange_witness :
    validateInputs ⟨num 2, num 1, num 1, num 70, some ["smoker", "htn", "diabetes"]⟩ = []
    ∧ inScoreRange
        (performCalculations
          ⟨num 2, num 1, num 1, num 70, some ["smoker", "htn", "diabetes"]⟩).totalScore :=
  ⟨by decide,
    validated_totalScore_inScoreRange
      ⟨num 2, num 1, num 1, num 70, some ["smoker", "htn", "diabetes"]⟩
      (by decide) (by decide) (by decide) (by decide)⟩

/-- C7: when `historyScore`, `ecgScore` and `tropScore` are each 0, 1 or 2, then for any age
and any risk-factor list the result has `agePoints` in 0..2, `riskFactorPoints` in 0..2 and an
integer `totalScore` with `0 ≤ totalScore ≤ 10`. -/
theorem performCalculations_bounds (inputs : Inputs)
    (hh : isCategoryCode inputs.historyScore) (he : isCategoryCode inputs.ecgScore)
    (ht : isCategoryCode inputs.tropScore) :
    isCategoryCode (performCalculations inputs).agePoints
    ∧ isCategoryCode (performCalculations inputs).riskFactorPoints
    ∧ inScoreRange (performCalculations inputs).totalScore :=
  ⟨calculateHeartAgePoints_cases inputs.ageYears,
    calculateHeartRiskFactorPoints_cases inputs.riskFactors,
    totalScore_inScoreRange inputs hh he ht⟩

theorem performCalculations_bounds_witness :
    isCategoryCode (performCalculations ⟨num 2, num 2, num 2, nan, some ["knownAthero"]⟩).agePoints
    ∧ isCategoryCode
        (performCalculations ⟨num 2, num 2, num 2, nan, some ["knownAthero"]⟩).riskFactorPoints
    ∧ inScoreRange
        (performCalculations ⟨num 2, num 2, num 2, nan, some ["knownAthero"]⟩).totalScore :=
  performCalculations_bounds ⟨num 2, num 2, num 2, nan, some ["knownAthero"]⟩
    (by decide) (by decide) (by decide)

/-! ## Validation: accumulation and acceptance -/

/-- C8: `validateInputs` runs its four checks without short-circuit: the result is the
in-order concatenation of the history message (iff `historyScore` is missing), the ECG
message (iff `ecgScore` is missing), the troponin message (iff `tropScore` is missing) and
one age message (the "required" one iff the age is missing, the range one iff the age is a
number below 0 or above 120); the number of messages is the number of failing fields.  Missing
history and missing age give two messages; missing history alone gives the one message. -/
theorem validateInputs_accumulates (h e t : JSNumber) (rfs : Option (List String)) :
    validateInputs ⟨h, e, t, nan, rfs⟩
        = (if h = nan then [historyRequiredMsg] else [])
          ++ (if e = nan then [ecgRequiredMsg] else [])
          ++ (if t = nan then [tropRequiredMsg] else [])
          ++ [ageRequiredMsg]
    ∧ (validateInputs ⟨h, e, t, nan, rfs⟩).length
        = (if h = nan then 1 else 0) + (if e = nan then 1 else 0)
          + (if t = nan then 1 else 0) + 1
    ∧ (∀ a : ℚ,
        validateInputs ⟨h, e, t, num a, rfs⟩
            = (if h = nan then [historyRequiredMsg] else [])
              ++ (if e = nan then [ecgRequiredMsg] else [])
              ++ (if t = nan then [tropRequiredMsg] else [])
              ++ (if a < 0 ∨ 120 < a then [ageRangeMsg] else [])
        ∧ (validateInputs ⟨h, e, t, num a, rfs⟩).length
            = (if h = nan then 1 else 0) + (if e = nan then 1 else 0)
              + (if t = nan then 1 else 0) + (if a < 0 ∨ 120 < a then 1 else 0))
    ∧ validateInputs ⟨nan, num 0, num 0, nan, some []⟩ = [historyRequiredMsg, ageRequiredMsg]
    ∧ validateInputs ⟨nan, num 0, num 0, num 40, some []⟩ = [historyRequiredMsg] := by
  refine ⟨?_, ?_, ?_, by decide, by decide⟩
  · rw [validateInputs_eq]
    cases h <;> cases e <;> cases t <;> simp
  · rw [validateInputs_eq]
    cases h <;> cases e <;> cases t <;> simp
  · intro a
    rw [validateInputs_eq]
    by_cases ha : a < 0 ∨ 120 < a
    · cases h <;> cases e <;> cases t <;> simp [ha]
    · cases h <;> cases e <;> cases t <;> simp [ha]

/-- C9: `validateInputs` returns the empty list iff `historyScore`, `ecgScore` and `tropScore`
are present and the age is a number `a` with `0 ≤ a ≤ 120` (0 and 120 accepted); the
"required" age message appears iff the age is missing, the range message iff the age is a
number below 0 or above 120, never both; changing the risk factors never changes the
result. -/
theorem validateInputs_nil_iff (inputs : Inputs) :
    (validateInputs inputs = [] ↔
        inputs.historyScore ≠ nan ∧ inputs.ecgScore ≠ nan ∧ inputs.tropScore ≠ nan
          ∧ ∃ a : ℚ, inputs.ageYears = num a ∧ 0 ≤ a ∧ a ≤ 120)
    ∧ (ageRequiredMsg ∈ validateInputs inputs ↔ inputs.ageYears = nan)
    ∧ (ageRangeMsg ∈ validateInputs inputs ↔
        ∃ a : ℚ, inputs.ageYears = num a ∧ (a < 0 ∨ 120 < a))
    ∧ ¬ (ageRequiredMsg ∈ validateInputs inputs ∧ ageRangeMsg ∈ validateInputs inputs)
    ∧ (∀ rfs : Option (List String),
        validateInputs { inputs with riskFactors := rfs } = validateInputs inputs)
    ∧ validateInputs ⟨num 0, num 0, num 0, num 0, none⟩ = []
    ∧ validateInputs ⟨num 2, num 2, num 2, num 120, some ["knownAthero"]⟩ = [] := by
  have d1 : ageRequiredMsg ≠ historyRequiredMsg := by decide
  have d2 : ageRequiredMsg ≠ ecgRequiredMsg := by decide
  have d3 : ageRequiredMsg ≠ tropRequiredMsg := by decide
  have d4 : ageRequiredMsg ≠ ageRangeMsg := by decide
  have d5 : ageRangeMsg ≠ historyRequiredMsg := by decide
  have d6 : ageRangeMsg ≠ ecgRequiredMsg := by decide
  have d7 : ageRangeMsg ≠ tropRequiredMsg := by decide
  obtain ⟨h, e, t, age, rfs⟩ := inputs
  have hreq : ageRequiredMsg ∈ validateInputs ⟨h, e, t, age, rfs⟩ ↔ age = nan := by
    rw [validateInputs_eq]
    cases age with
    | nan => simp
    | num a =>
      by_cases ha : a < 0 ∨ 120 < a <;>
        cases h <;> cases e <;> cases t <;> simp [ha, d1, d2, d3, d4]
  have hrange : ageRangeMsg ∈ validateInputs ⟨h, e, t, age, rfs⟩ ↔
      ∃ a : ℚ, age = num a ∧ (a < 0 ∨ 120 < a) := by
    rw [validateInputs_eq]
    cases age with
    | nan => cases h <;> cases e <;> cases t <;> simp [d5, d6, d7, d4.symm]
    | num a =>
      by_cases ha : a < 0 ∨ 120 < a <;>
        cases h <;> cases e <;> cases t <;> simp [ha, d5, d6, d7]
  refine ⟨?_, hreq, hrange, ?_, ?_, by decide, by decide⟩
  · rw [validateInputs_eq]
    cases age with
    | nan => simp
    | num a =>
      by_cases ha : a < 0 ∨ 120 < a
      · have : ¬ (0 ≤ a ∧ a ≤ 120) := by
          rintro ⟨h0, h1⟩
          rcases ha with ha | ha <;> linarith
        cases h <;> cases e <;> cases t <;> simp [ha, this]
      · have : 0 ≤ a ∧ a ≤ 120 := by
          constructor <;> by_contra hc <;> exact ha (by first | exact Or.inl (lt_of_not_le hc) | exact Or.inr (lt_of_not_le hc))
        cases h <;> cases e <;> cases t <;> simp [ha, this]
  · rintro ⟨h1, h2⟩
    rw [hreq] at h1
    rw [hrange] at h2
    obtain ⟨a, ha, _⟩ := h2
    rw [h1] at ha
    exact JSNumber.noConfusion ha
  · intro rfs2
    rfl

/-! ## Interpretation notes -/

theorem interpretResults_notes_eq (results : ScoreResult) :
    (interpretResults results).notes
      = [if results.riskCategory = "low" then lowNote
         else if results.riskCategory = "intermediate" then intermediateNote
         else highNote,
         maceNote]
        ++ (if results.ageYears.lt (num 18) then [pediatricNote] else []) := by
  unfold interpretResults
  split_ifs <;> rfl


/-- C10: for every score result, the notes of `interpretResults` are the category note of
`riskCategory` (the low note for "low", the intermediate note for "intermediate", the high
note otherwise), then the MACE-definition note, then the pediatric caveat exactly when
`ageYears < 18`: three notes when `ageYears < 18` and two otherwise, category note first,
MACE definition second, the caveat last when present and absent otherwise.  For history 0,
ECG 0, troponin 0, age 16 the last note is the pediatric caveat. -/
theorem interpretResults_notes (results : ScoreResult) :
    (interpretResults results).notes
        = [if results.riskCategory = "low" then lowNote
           else if results.riskCategory = "intermediate" then intermediateNote
           else highNote,
           maceNote]
          ++ (if results.ageYears.lt (num 18) then [pediatricNote] else [])
    ∧ (interpretResults results).notes.length = (if results.ageYears.lt (num 18) then 3 else 2)
    ∧ (interpretResults results).notes.head?
        = some (if results.riskCategory = "low" then lowNote
                else if results.riskCategory = "intermediate" then intermediateNote
                else highNote)
    ∧ (interpretResults results).notes.get? 1 = some maceNote
    ∧ (if results.ageYears.lt (num 18)
        then (interpretResults results).notes.getLast? = some pediatricNote
        else pediatricNote ∉ (interpretResults results).notes)
    ∧ (∀ a : ℚ, (num a).lt (num 18) = true ↔ a < 18)
    ∧ nan.lt (num 18) = false
    ∧ (interpretResults
        (performCalculations ⟨num 0, num 0, num 0, num 16, some []⟩)).notes.getLast?
        = some pediatricNote := by
  have p1 : pediatricNote ≠ lowNote := by decide
  have p2 : pediatricNote ≠ intermediateNote := by decide
  have p3 : pediatricNote ≠ highNote := by decide
  have p4 : pediatricNote ≠ maceNote := by decide
  have key := interpretResults_notes_eq results
  refine ⟨key, ?_, ?_, ?_, ?_, fun a => by simp, rfl, ?_⟩
  · rw [key]; split_ifs <;> rfl
  · rw [key]; rfl
  · rw [key]; rfl
  · rw [key]
    cases hl : results.ageYears.lt (num 18)
    · simp only [Bool.false_eq_true, if_false, List.append_nil]
      intro hmem
      rw [List.mem_cons, List.mem_singleton] at hmem
      rcases hmem with h | h
      · split_ifs at h
        · exact p1 h
        · exact p2 h
        · exact p3 h
      · exact p4 h
    · simp
  · rw [interpretResults_notes_eq]
    have hl : (performCalculations ⟨num 0, num 0, num 0, num 16, some []⟩).ageYears.lt (num 18)
        = true := by decide
    simp [hl]

/-! ## Flag derivation -/

theorem deriveFlags_eq (results : ScoreResult) (interpretation : Interpretation) :
    deriveFlags results interpretation
      = (if results.riskCategory = "high" then [{ level := "danger", message := highFlagMsg }]
         else if results.riskCategory = "intermediate" then
           [{ level := "warning", message := intermediateFlagMsg }]
         else [])
        ++ (if results.ageYears.lt (num 18) then [{ level := "warning", message := ageFlagMsg }]
            else []) := by
  unfold deriveFlags
  split_ifs <;> rfl

/-- C11: for every score result and every interpretation, `deriveFlags` returns the risk-based
flags (one "danger" flag when `riskCategory` is "high", one "warning" flag when it is
"intermediate", none when it is "low") followed by one age-based "warning" flag exactly when
`ageYears < 18`; the list has at most two flags, and the risk-based flag, when there is one,
comes before the age-based flag. -/
theorem deriveFlags_order (results : ScoreResult) (interpretation : Interpretation) :
    deriveFlags { results with riskCategory := "high" } interpretation
        = [{ level := "danger", message := highFlagMsg }]
          ++ (if results.ageYears.lt (num 18)
              then [{ level := "warning", message := ageFlagMsg }] else [])
    ∧ deriveFlags { results with riskCategory := "intermediate" } interpretation
        = [{ level := "warning", message := intermediateFlagMsg }]
          ++ (if results.ageYears.lt (num 18)
              then [{ level := "warning", message := ageFlagMsg }] else [])
    ∧ deriveFlags { results with riskCategory := "low" } interpretation
        = [] ++ (if results.ageYears.lt (num 18)
              then [{ level := "warning", message := ageFlagMsg }] else [])
    ∧ deriveFlags results interpretation
        = (if results.riskCategory = "high" then
             [{ level := "danger", message := highFlagMsg }]
           else if results.riskCategory = "intermediate" then
             [{ level := "warning", message := intermediateFlagMsg }]
           else [])
          ++ (if results.ageYears.lt (num 18)
              then [{ level := "warning", message := ageFlagMsg }] else [])
    ∧ (deriveFlags results interpretation).length ≤ 2
    ∧ ((deriveFlags results interpretation).length = 2 ↔
        (results.riskCategory = "high" ∨ results.riskCategory = "intermediate")
          ∧ results.ageYears.lt (num 18) = true)
    ∧ ((deriveFlags results interpretation).length = 2 ↔
        (deriveFlags results interpretation).get? 1
            = some { level := "warning", message := ageFlagMsg }
          ∧ ((deriveFlags results interpretation).head?
                = some { level := "danger", message := highFlagMsg }
              ∨ (deriveFlags results interpretation).head?
                = some { level := "warning", message := intermediateFlagMsg })) := by
  have hih : "intermediate" ≠ "high" := by decide
  have hlh : "low" ≠ "high" := by decide
  have hli : "low" ≠ "intermediate" := by decide
  refine ⟨?_, ?_, ?_, deriveFlags_eq results interpretation, ?_, ?_, ?_⟩
  · rw [deriveFlags_eq]; simp
  · rw [deriveFlags_eq]; simp
  · rw [deriveFlags_eq]; simp
  · rw [deriveFlags_eq]
    split_ifs <;> simp
  · rw [deriveFlags_eq]
    split_ifs with h1 h2 h3 h4 <;> simp_all
  · rw [deriveFlags_eq]
    split_ifs with h1 h2 h3 h4 <;> simp

/-! ## The category is a function of the total -/

/-- C12: the `riskCategory` of a result is `classifyHeartRiskCategory` of its `totalScore`, so
two inputs with the same `totalScore` get the same `riskCategory`, whatever their components,
age and risk factors. -/
theorem riskCategory_of_totalScore (inputs inputs2 : Inputs)
    (h : (performCalculations inputs).totalScore = (performCalculations inputs2).totalScore) :
    (performCalculations inputs).riskCategory
        = classifyHeartRiskCategory (performCalculations inputs).totalScore
    ∧ (performCalculations inputs2).riskCategory
        = classifyHeartRiskCategory (performCalculations inputs2).totalScore
    ∧ (performCalculations inputs).riskCategory = (performCalculations inputs2).riskCategory := by
  refine ⟨rfl, rfl, ?_⟩
  show classifyHeartRiskCategory (performCalculations inputs).totalScore
      = classifyHeartRiskCategory (performCalculations inputs2).totalScore
  rw [h]

theorem performCalculations_totalScore_num (h e t ap rp : ℚ) (age : JSNumber)
    (rfs : Option (List String)) (ha : calculateHeartAgePoints age = num ap)
    (hr : calculateHeartRiskFactorPoints rfs = num rp) :
    (performCalculations ⟨num h, num e, num t, age, rfs⟩).totalScore
      = num (h + e + ap + rp + t) := by
  simp only [performCalculations, ha, hr, JSNumber.num_add_num]

theorem riskCategory_of_totalScore_witness :
    (performCalculations ⟨num 2, num 1, num 1, num 30, some []⟩).totalScore
        = (performCalculations ⟨num 0, num 0, num 1, num 50, some ["knownAthero"]⟩).totalScore
    ∧ (performCalculations ⟨num 2, num 1, num 1, num 30, some []⟩).riskCategory
        = (performCalculations ⟨num 0, num 0, num 1, num 50, some ["knownAthero"]⟩).riskCategory :=
  have h : (performCalculations ⟨num 2, num 1, num 1, num 30, some []⟩).totalScore
      = (performCalculations ⟨num 0, num 0, num 1, num 50, some ["knownAthero"]⟩).totalScore := by
    rw [performCalculations_totalScore_num 2 1 1 0 0 _ _ (by decide) (by decide),
      performCalculations_totalScore_num 0 0 1 1 2 _ _ (by decide) (by decide)]
    norm_num
  ⟨h, (riskCategory_of_totalScore _ _ h).2.2⟩

/-! ## Monotonicity of the sub-scores -/

theorem calculateHeartAgePoints_mono_rat (a b : ℚ) (h : a ≤ b) :
    (calculateHeartAgePoints (num a)).le (calculateHeartAgePoints (num b)) = true := by
  unfold calculateHeartAgePoints
  by_cases ha1 : a < 45 <;> by_cases ha2 : a < 65 <;> by_cases hb1 : b < 45 <;>
    by_cases hb2 : b < 65 <;> simp [ha1, ha2, hb1, hb2] <;> linarith

/-- C13: `calculateHeartAgePoints` is non-decreasing on integer ages: for `a ≤ b` the points of
`a` are at most the points of `b`; every result is 0, 1 or 2, and each of the three values is
attained (at ages 0, 45 and 65). -/
theorem calculateHeartAgePoints_monotone (a b : ℤ) (h : a ≤ b) :
    (calculateHeartAgePoints (num (a : ℚ))).le (calculateHeartAgePoints (num (b : ℚ))) = true
    ∧ (calculateHeartAgePoints (num (a : ℚ)) = num 0
        ∨ calculateHeartAgePoints (num (a : ℚ)) = num 1
        ∨ calculateHeartAgePoints (num (a : ℚ)) = num 2)
    ∧ calculateHeartAgePoints (num 0) = num 0
    ∧ calculateHeartAgePoints (num 45) = num 1
    ∧ calculateHeartAgePoints (num 65) = num 2 :=
  ⟨calculateHeartAgePoints_mono_rat a b (by exact_mod_cast h),
    calculateHeartAgePoints_cases _, by decide, by decide, by decide⟩

theorem calculateHeartAgePoints_monotone_witness :
    (calculateHeartAgePoints (num ((44 : ℤ) : ℚ))).le
        (calculateHeartAgePoints (num ((45 : ℤ) : ℚ))) = true :=
  (calculateHeartAgePoints_monotone 44 45 (by decide)).1

theorem calculateHeartRiskFactorPoints_some_eq (rfs : List String) :
    calculateHeartRiskFactorPoints (some rfs)
      = if "knownAthero" ∈ rfs then num 2
        else if rfs.length = 0 then num 0
        else if rfs.length ≤ 2 then num 1
        else num 2 := by
  by_cases h : "knownAthero" ∈ rfs
  · have hne : rfs.length ≠ 0 := by
      intro h0
      rw [List.length_eq_zero] at h0
      rw [h0] at h
      exact absurd h (List.not_mem_nil _)
    have hc : rfs.contains "knownAthero" = true := by simpa using h
    simp only [calculateHeartRiskFactorPoints, hne, if_false, hc, if_true, h]
  · have hc : rfs.contains "knownAthero" = false := by simpa using h
    simp only [calculateHeartRiskFactorPoints, hc, filter_ne_knownAthero_of_not_mem rfs h, h,
      if_false]
    by_cases h0 : rfs.length = 0
    · simp [h0]
    · simp [h0]

/-- C14: adding a token `t` to a risk-factor list, at any position, never lowers the points
(in particular for `rfs` followed by `t`), and no list, absent list included, scores more
than 2. -/
theorem calculateHeartRiskFactorPoints_monotone (pre post : List String) (t : String) :
    (calculateHeartRiskFactorPoints (some (pre ++ post))).le
        (calculateHeartRiskFactorPoints (some (pre ++ t :: post))) = true
    ∧ (calculateHeartRiskFactorPoints (some pre)).le
        (calculateHeartRiskFactorPoints (some (pre ++ [t]))) = true
    ∧ (∀ rfs : Option (List String), (calculateHeartRiskFactorPoints rfs).le (num 2) = true) := by
  have key : ∀ l1 l2 : List String,
      (calculateHeartRiskFactorPoints (some (l1 ++ l2))).le
        (calculateHeartRiskFactorPoints (some (l1 ++ t :: l2))) = true := by
    intro l1 l2
    simp only [calculateHeartRiskFactorPoints_some_eq, List.mem_append, List.mem_cons,
      List.length_append, List.length_cons]
    split_ifs <;> first | (simp_all; done) | (simp_all; omega)
  refine ⟨key pre post, ?_, ?_⟩
  · have := key pre []
    simpa using this
  · intro rfs
    rcases calculateHeartRiskFactorPoints_cases rfs with h | h | h <;> (rw [h]; simp)

/-! ## Order of the risk factors -/

/-- C15: a permutation of the risk-factor list leaves `calculateHeartRiskFactorPoints`
unchanged, and so `performCalculations` gives the same `totalScore` and `riskCategory` for the
two lists, whatever the other fields. -/
theorem calculateHeartRiskFactorPoints_perm (rfs rfs2 : List String) (h : rfs.Perm rfs2) :
    calculateHeartRiskFactorPoints (some rfs2) = calculateHeartRiskFactorPoints (some rfs)
    ∧ ∀ hist ecg trop age : JSNumber,
        (performCalculations ⟨hist, ecg, trop, age, some rfs2⟩).totalScore
            = (performCalculations ⟨hist, ecg, trop, age, some rfs⟩).totalScore
        ∧ (performCalculations ⟨hist, ecg, trop, age, some rfs2⟩).riskCategory
            = (performCalculations ⟨hist, ecg, trop, age, some rfs⟩).riskCategory := by
  have hp : calculateHeartRiskFactorPoints (some rfs2)
      = calculateHeartRiskFactorPoints (some rfs) := by
    rw [calculateHeartRiskFactorPoints_some_eq, calculateHeartRiskFactorPoints_some_eq,
      h.length_eq]
    simp only [h.mem_iff]
  refine ⟨hp, ?_⟩
  intro hist ecg trop age
  simp only [performCalculations, hp, and_self]

theorem calculateHeartRiskFactorPoints_perm_witness :
    ["smoker", "knownAthero", "htn"].Perm ["htn", "smoker", "knownAthero"]
    ∧ calculateHeartRiskFactorPoints (some ["htn", "smoker", "knownAthero"])
        = calculateHeartRiskFactorPoints (some ["smoker", "knownAthero", "htn"]) :=
  ⟨by decide,
    (calculateHeartRiskFactorPoints_perm ["smoker", "knownAthero", "htn"]
      ["htn", "smoker", "knownAthero"] (by decide)).1⟩

/-! ## What the flags depend on -/

/-- C16: `deriveFlags` does not read its interpretation argument, and two score results with
the same `riskCategory` and the same `ageYears` yield the same flags, whatever their other
fields and whatever interpretations are passed. -/
theorem deriveFlags_depends_on_category_and_age (r1 r2 : ScoreResult)
    (i1 i2 : Interpretation) (hc : r1.riskCategory = r2.riskCategory)
    (ha : r1.ageYears = r2.ageYears) :
    deriveFlags r1 i1 = deriveFlags r1 i2 ∧ deriveFlags r1 i1 = deriveFlags r2 i2 := by
  refine ⟨rfl, ?_⟩
  rw [deriveFlags_eq, deriveFlags_eq, hc, ha]

theorem deriveFlags_depends_on_category_and_age_witness :
    deriveFlags ⟨num 16, num 2, num 2, num 2, some ["htn"], num 0, num 1, num 7, "high"⟩
        ⟨highSummary, [highNote, maceNote, pediatricNote]⟩
      = deriveFlags ⟨num 16, num 0, num 0, num 0, none, num 2, num 2, num 4, "high"⟩
        ⟨"", []⟩ :=
  (deriveFlags_depends_on_category_and_age
    ⟨num 16, num 2, num 2, num 2, some ["htn"], num 0, num 1, num 7, "high"⟩
    ⟨num 16, num 0, num 0, num 0, none, num 2, num 2, num 4, "high"⟩
    ⟨highSummary, [highNote, maceNote, pediatricNote]⟩ ⟨"", []⟩ rfl rfl).2

/-! ## Fields carried over -/

/-- C17: `performCalculations` copies `ageYears`, `historyScore`, `ecgScore`, `tropScore` and
`riskFactors` unchanged from its input into the result. -/
theorem performCalculations_copies_inputs (inputs : Inputs) :
    (performCalculations inputs).ageYears = inputs.ageYears
    ∧ (performCalculations inputs).historyScore = inputs.historyScore
    ∧ (performCalculations inputs).ecgScore = inputs.ecgScore
    ∧ (performCalculations inputs).tropScore = inputs.tropScore
    ∧ (performCalculations inputs).riskFactors = inputs.riskFactors :=
  ⟨rfl, rfl, rfl, rfl, rfl⟩

/-- C20: `calculateHeartScoreFromRaw` returns the same `totalScore`, `riskCategory`,
`agePoints` and `riskFactorPoints` as `performCalculations`, for every input. -/
theorem calculateHeartScoreFromRaw_eq_performCalculations (inputs : Inputs) :
    (calculateHeartScoreFromRaw inputs).totalScore = (performCalculations inputs).totalScore
    ∧ (calculateHeartScoreFromRaw inputs).riskCategory
        = (performCalculations inputs).riskCategory
    ∧ (calculateHeartScoreFromRaw inputs).agePoints = (performCalculations inputs).agePoints
    ∧ (calculateHeartScoreFromRaw inputs).riskFactorPoints
        = (performCalculations inputs).riskFactorPoints :=
  ⟨rfl, rfl, rfl, rfl⟩

/-! ## Summary and total -/

theorem interpretResults_summary_eq (results : ScoreResult) :
    (interpretResults results).summary
      = if results.riskCategory = "low" then lowSummary
        else if results.riskCategory = "intermediate" then intermediateSummary
        else highSummary := by
  unfold interpretResults
  split_ifs <;> rfl

theorem interpretResults_of_int_total (results : ScoreResult) (n : ℤ)
    (htot : results.totalScore = num (n : ℚ))
    (hcat : results.riskCategory = classifyHeartRiskCategory results.totalScore) :
    (interpretResults results).summary
        = (if n ≤ 3 then lowSummary else if n ≤ 6 then intermediateSummary else highSummary)
    ∧ (interpretResults results).notes.head?
        = some (if n ≤ 3 then lowNote else if n ≤ 6 then intermediateNote else highNote) := by
  rw [htot, classifyHeartRiskCategory_int] at hcat
  rw [interpretResults_summary_eq, interpretResults_notes_eq, hcat]
  by_cases h3 : n ≤ 3
  · simp [h3]
  · by_cases h6 : n ≤ 6 <;> simp [h3, h6]

/-- C18: for every input whose three category codes are each 0, 1 or 2, the total is an
integer `n` in 0..10 and the summary printed for the result is the low-risk one (0–3) iff
`0 ≤ n ≤ 3`, the intermediate-risk one (4–6) iff `4 ≤ n ≤ 6` and the high-risk one (7–10) iff
`7 ≤ n ≤ 10`; the first note is the MACE-rate note of that same band. -/
theorem summary_matches_totalScore (inputs : Inputs)
    (hh : isCategoryCode inputs.historyScore) (he : isCategoryCode inputs.ecgScore)
    (ht : isCategoryCode inputs.tropScore) :
    ∃ n : ℤ, (performCalculations inputs).totalScore = num (n : ℚ)
      ∧ ((interpretResults (performCalculations inputs)).summary = lowSummary
          ↔ 0 ≤ n ∧ n ≤ 3)
      ∧ ((interpretResults (performCalculations inputs)).summary = intermediateSummary
          ↔ 4 ≤ n ∧ n ≤ 6)
      ∧ ((interpretResults (performCalculations inputs)).summary = highSummary
          ↔ 7 ≤ n ∧ n ≤ 10)
      ∧ ((interpretResults (performCalculations inputs)).notes.head? = some lowNote
          ↔ 0 ≤ n ∧ n ≤ 3)
      ∧ ((interpretResults (performCalculations inputs)).notes.head? = some intermediateNote
          ↔ 4 ≤ n ∧ n ≤ 6)
      ∧ ((interpretResults (performCalculations inputs)).notes.head? = some highNote
          ↔ 7 ≤ n ∧ n ≤ 10) := by
  have s1 : lowSummary ≠ intermediateSummary := by decide
  have s2 : lowSummary ≠ highSummary := by decide
  have s3 : intermediateSummary ≠ highSummary := by decide
  have n1 : lowNote ≠ intermediateNote := by decide
  have n2 : lowNote ≠ highNote := by decide
  have n3 : intermediateNote ≠ highNote := by decide
  obtain ⟨n, htot, h0, h10⟩ := totalScore_inScoreRange inputs hh he ht
  obtain ⟨hs, hn⟩ := interpretResults_of_int_total (performCalculations inputs) n htot rfl
  refine ⟨n, htot, ?_⟩
  rw [hs, hn]
  by_cases h3 : n ≤ 3 <;> by_cases h6 : n ≤ 6 <;>
    simp [h3, h6, s1, s2, s3, n1, n2, n3, s1.symm, s2.symm, s3.symm, n1.symm, n2.symm,
      n3.symm] <;>
    omega

theorem summary_matches_totalScore_witness :
    ∃ n : ℤ,
      (performCalculations
          ⟨num 2, num 1, num 1, num 70, some ["smoker", "htn", "diabetes"]⟩).totalScore
        = num (n : ℚ)
      ∧ ((interpretResults (performCalculations
            ⟨num 2, num 1, num 1, num 70, some ["smoker", "htn", "diabetes"]⟩)).summary
          = highSummary ↔ 7 ≤ n ∧ n ≤ 10) :=
  (summary_matches_totalScore ⟨num 2, num 1, num 1, num 70, some ["smoker", "htn", "diabetes"]⟩
    (by decide) (by decide) (by decide)).imp fun _ h => ⟨h.1, h.2.2.2.1⟩

/-! ## Flags against the total, end to end -/

theorem deriveFlags_of_int_total (results : ScoreResult) (interpretation : Interpretation)
    (n : ℤ) (a : ℚ) (htot : results.totalScore = num (n : ℚ))
    (hcat : results.riskCategory = classifyHeartRiskCategory results.totalScore)
    (hage : results.ageYears = num a) :
    ((∃ f ∈ deriveFlags results interpretation, f.level = "danger")
        ↔ results.totalScore.ge (num 7) = true)
    ∧ (deriveFlags results interpretation = []
        ↔ results.totalScore.le (num 3) = true ∧ results.ageYears.ge (num 18) = true)
    ∧ (∀ f ∈ deriveFlags results interpretation, f.level = "danger" →
        (deriveFlags results interpretation).head? = some f) := by
  have h3 : ((n : ℚ) ≤ 3) ↔ n ≤ 3 := by exact_mod_cast Iff.rfl
  have h7 : ((7 : ℚ) ≤ (n : ℚ)) ↔ 7 ≤ n := by exact_mod_cast Iff.rfl
  have h18 : (18 : ℚ) ≤ a ↔ ¬ a < 18 := not_lt.symm
  rw [htot, classifyHeartRiskCategory_int] at hcat
  rw [deriveFlags_eq, hcat, htot, hage]
  simp only [JSNumber.ge_num_num, JSNumber.le_num_num, JSNumber.lt_num_num, decide_eq_true_eq,
    h3, h7, h18]
  by_cases c3 : n ≤ 3 <;> by_cases c6 : n ≤ 6 <;> by_cases ca : a < 18 <;>
    simp [c3, c6, ca] <;> omega

theorem deriveFlags_of_totalScore (inputs : Inputs) (interpretation : Interpretation)
    (total : JSNumber) (htot : (performCalculations inputs).totalScore = total) :
    deriveFlags (performCalculations inputs) interpretation
      = (if classifyHeartRiskCategory total = "high" then
           [{ level := "danger", message := highFlagMsg }]
         else if classifyHeartRiskCategory total = "intermediate" then
           [{ level := "warning", message := intermediateFlagMsg }]
         else [])
        ++ (if inputs.ageYears.lt (num 18) then [{ level := "warning", message := ageFlagMsg }]
            else []) := by
  rw [deriveFlags_eq, ← htot]
  rfl

/-- C19, as stated, fails on inputs with a missing field: with the age missing (`NaN`) and
codes 0, 0, 0 the flag list is empty although `ageYears ≥ 18` is false, and with the history
code missing the total is `NaN`, a "danger" flag is raised although `totalScore ≥ 7` is
false. -/
theorem deriveFlags_missing_field :
    deriveFlags (performCalculations ⟨num 0, num 0, num 0, nan, some []⟩)
        (interpretResults (performCalculations ⟨num 0, num 0, num 0, nan, some []⟩)) = []
    ∧ (performCalculations ⟨num 0, num 0, num 0, nan, some []⟩).ageYears.ge (num 18) = false
    ∧ (∃ f ∈ deriveFlags (performCalculations ⟨nan, num 0, num 0, num 30, some []⟩)
          (interpretResults (performCalculations ⟨nan, num 0, num 0, num 30, some []⟩)),
        f.level = "danger")
    ∧ (performCalculations ⟨nan, num 0, num 0, num 30, some []⟩).totalScore.ge (num 7)
        = false := by
  have t1 : (performCalculations ⟨num 0, num 0, num 0, nan, some []⟩).totalScore = num 2 := by
    rw [performCalculations_totalScore_num 0 0 0 2 0 _ _ (by decide) (by decide)]
    norm_num
  have c1 : (performCalculations ⟨num 0, num 0, num 0, nan, some []⟩).riskCategory = "low" := by
    show classifyHeartRiskCategory
      (performCalculations ⟨num 0, num 0, num 0, nan, some []⟩).totalScore = "low"
    rw [t1]
    decide
  have t2 : (performCalculations ⟨nan, num 0, num 0, num 30, some []⟩).totalScore = nan := by
    simp [performCalculations]
  have c2 : (performCalculations ⟨nan, num 0, num 0, num 30, some []⟩).riskCategory = "high" := by
    show classifyHeartRiskCategory
      (performCalculations ⟨nan, num 0, num 0, num 30, some []⟩).totalScore = "high"
    rw [t2]
    decide
  refine ⟨?_, rfl, ?_, ?_⟩
  · rw [deriveFlags_eq, c1]
    have : (performCalculations ⟨num 0, num 0, num 0, nan, some []⟩).ageYears.lt (num 18)
        = false := rfl
    rw [this]
    decide
  · refine ⟨{ level := "danger", message := highFlagMsg }, ?_, rfl⟩
    rw [deriveFlags_eq, c2]
    simp
  · rw [t2]
    rfl

/-- C19, amended: for every input whose three category codes are integers and whose age is a
number (no field missing), with `r` the result of `performCalculations` and `flags` the flags
derived from `r` and its interpretation: `flags` contains a "danger" flag iff
`r.totalScore ≥ 7`, `flags` is empty iff `r.totalScore ≤ 3` and `ageYears ≥ 18`, and a
"danger" flag, when present, is the first element.  Codes 0, 0, 0 at age 30 with no factor
give no flag; codes 2, 1, 1 at age 70 with three factors give total 8 and one "danger" flag;
codes 1, 1, 1 at age 50 with "knownAthero" give total 6 and one "warning" flag. -/
theorem flags_track_totalScore (h e t : ℤ) (a : ℚ) (rfs : Option (List String)) :
    ((∃ f ∈ deriveFlags (performCalculations ⟨num h, num e, num t, num a, rfs⟩)
            (interpretResults (performCalculations ⟨num h, num e, num t, num a, rfs⟩)),
          f.level = "danger")
        ↔ (performCalculations ⟨num h, num e, num t, num a, rfs⟩).totalScore.ge (num 7) = true)
    ∧ (deriveFlags (performCalculations ⟨num h, num e, num t, num a, rfs⟩)
            (interpretResults (performCalculations ⟨num h, num e, num t, num a, rfs⟩)) = []
        ↔ (performCalculations ⟨num h, num e, num t, num a, rfs⟩).totalScore.le (num 3) = true
          ∧ (performCalculations ⟨num h, num e, num t, num a, rfs⟩).ageYears.ge (num 18)
              = true)
    ∧ (∀ f ∈ deriveFlags (performCalculations ⟨num h, num e, num t, num a, rfs⟩)
            (interpretResults (performCalculations ⟨num h, num e, num t, num a, rfs⟩)),
        f.level = "danger" →
          (deriveFlags (performCalculations ⟨num h, num e, num t, num a, rfs⟩)
            (interpretResults
              (performCalculations ⟨num h, num e, num t, num a, rfs⟩))).head? = some f)
    ∧ deriveFlags (performCalculations ⟨num 0, num 0, num 0, num 30, some []⟩)
        (interpretResults (performCalculations ⟨num 0, num 0, num 0, num 30, some []⟩)) = []
    ∧ (performCalculations
        ⟨num 2, num 1, num 1, num 70, some ["smoker", "htn", "diabetes"]⟩).totalScore = num 8
    ∧ deriveFlags
        (performCalculations ⟨num 2, num 1, num 1, num 70, some ["smoker", "htn", "diabetes"]⟩)
        (interpretResults
          (performCalculations ⟨num 2, num 1, num 1, num 70, some ["smoker", "htn", "diabetes"]⟩))
        = [{ level := "danger", message := highFlagMsg }]
    ∧ (performCalculations ⟨num 1, num 1, num 1, num 50, some ["knownAthero"]⟩).totalScore
        = num 6
    ∧ deriveFlags (performCalculations ⟨num 1, num 1, num 1, num 50, some ["knownAthero"]⟩)
        (interpretResults
          (performCalculations ⟨num 1, num 1, num 1, num 50, some ["knownAthero"]⟩))
        = [{ level := "warning", message := intermediateFlagMsg }] := by
  obtain ⟨ap, ha, -, -⟩ := isCategoryCode_int (calculateHeartAgePoints_cases (num a))
  obtain ⟨rp, hr, -, -⟩ := isCategoryCode_int (calculateHeartRiskFactorPoints_cases rfs)
  have htot : (performCalculations ⟨num h, num e, num t, num a, rfs⟩).totalScore
      = num ((h + e + ap + rp + t : ℤ) : ℚ) := by
    rw [performCalculations_totalScore_num h e t ap rp _ _ ha hr]
    push_cast
    rfl
  obtain ⟨g1, g2, g3⟩ := deriveFlags_of_int_total
    (performCalculations ⟨num h, num e, num t, num a, rfs⟩)
    (interpretResults (performCalculations ⟨num h, num e, num t, num a, rfs⟩)) _ a htot rfl rfl
  have t1 : (performCalculations ⟨num 0, num 0, num 0, num 30, some []⟩).totalScore
      = num 0 := by
    rw [performCalculations_totalScore_num 0 0 0 0 0 _ _ (by decide) (by decide)]
    norm_num
  have t2 : (performCalculations
      ⟨num 2, num 1, num 1, num 70, some ["smoker", "htn", "diabetes"]⟩).totalScore = num 8 := by
    rw [performCalculations_totalScore_num 2 1 1 2 2 _ _ (by decide) (by decide)]
    norm_num
  have t3 : (performCalculations ⟨num 1, num 1, num 1, num 50, some ["knownAthero"]⟩).totalScore
      = num 6 := by
    rw [performCalculations_totalScore_num 1 1 1 1 2 _ _ (by decide) (by decide)]
    norm_num
  refine ⟨g1, g2, g3, ?_, t2, ?_, t3, ?_⟩
  · rw [deriveFlags_of_totalScore _ _ _ t1]
    decide
  · rw [deriveFlags_of_totalScore _ _ _ t2]
    decide
  · rw [deriveFlags_of_totalScore _ _ _ t3]
    decide

end HeartScore
